import Mathlib

/-!
Verification of the SSZ Merkle gadgets, the beacon builder methods, the
byte/validator circuit variables and the map-reduce pipeline stages of the
repository, as shallow Lean embeddings of the Rust source.

Digests handled by the Merkle gadgets are kept abstract (type `α`) and the
256-bit-input SHA-256 gadget appears as a parameter `H : α → α → α`
(`H left right` hashes the 64-byte concatenation `left ‖ right`); the
hashing primitive itself is outside the gadget code.  A concrete SHA-256
over byte lists is also provided to check the repository's test vectors.
-/

namespace SSZ

/-- Modelled from the spec: the conditional-select gate used by the
dynamic-index gadget; `select b x y` is `x` when the bit is set and `y`
otherwise. -/
def select {α : Type} (b : Bool) (x y : α) : α :=
  if b then x else y

/-- Loop body of `ssz_restore_merkle_root` (builder.rs lines 140-156): at
level `i` both concatenation orders are hashed (`case1 = H(branch[i] ‖ hash)`,
`case2 = H(hash ‖ branch[i])`) and bit `i` of the generalized index selects
between them.  The little-endian bits of the U64 index are `Nat.testBit`. -/
def ssz_restore_merkle_root_loop {α : Type} (H : α → α → α) (gindex : Nat) :
    Nat → α → List α → α
  | _, hash, [] => hash
  | i, hash, b :: rest =>
      let case1 := H b hash
      let case2 := H hash b
      ssz_restore_merkle_root_loop H gindex (i + 1)
        (select (gindex.testBit i) case1 case2) rest

/-- `ssz_restore_merkle_root` (builder.rs lines 133-157): dynamic-index
variant.  `to_le_bits` of a `U64Variable` yields 64 bits, so indexing
`bits[i]` for every branch level requires `branch.len() <= 64`; a longer
branch makes circuit construction fail (out-of-bounds index), modelled as
`none`. -/
def ssz_restore_merkle_root {α : Type} (H : α → α → α) (leaf : α)
    (branch : List α) (gindex : Nat) : Option α :=
  if branch.length ≤ 64 then
    some (ssz_restore_merkle_root_loop H gindex 0 leaf branch)
  else
    none

/-- Loop body of `ssz_restore_merkle_root_const` (builder.rs lines 167-179):
at level `i`, if `(gindex >> i) & 1 == 1` the sibling is hashed first
(`H(branch[i] ‖ hash)`), otherwise the running hash is first
(`H(hash ‖ branch[i])`). -/
def ssz_restore_merkle_root_const_loop {α : Type} (H : α → α → α)
    (gindex : Nat) : Nat → α → List α → α
  | _, hash, [] => hash
  | i, hash, b :: rest =>
      let fs := if (gindex >>> i) &&& 1 = 1 then (b, hash) else (hash, b)
      ssz_restore_merkle_root_const_loop H gindex (i + 1) (H fs.1 fs.2) rest

/-- `ssz_restore_merkle_root_const` (builder.rs lines 160-180): constant-index
variant.  Construction first evaluates
`assert!(2u64.pow(branch.len() as u32 + 1) > gindex)`; the `u64` power is
taken modulo `2^64` (in a release build it wraps to `0` once
`branch.len() + 1 >= 64`, making the assertion false; in a debug build the
overflowing `pow` itself panics), and a failed assertion aborts circuit
construction.  Construction failure is modelled as `none`. -/
def ssz_restore_merkle_root_const {α : Type} (H : α → α → α) (leaf : α)
    (branch : List α) (gindex : Nat) : Option α :=
  if 2 ^ (branch.length + 1) % 2 ^ 64 > gindex then
    some (ssz_restore_merkle_root_const_loop H gindex 0 leaf branch)
  else
    none

/-- `ssz_verify_proof` (builder.rs lines 109-118): restores the root with the
dynamic-index gadget and asserts equality with the given root.  The returned
boolean is the truth value of the asserted equality (proving succeeds exactly
when it holds); `none` is construction failure. -/
def ssz_verify_proof {α : Type} [DecidableEq α] (H : α → α → α) (root leaf : α)
    (branch : List α) (gindex : Nat) : Option Bool :=
  (ssz_restore_merkle_root H leaf branch gindex).map
    (fun expected => decide (root = expected))

/-- `ssz_verify_proof_const` (builder.rs lines 121-130): restores the root
with the constant-index gadget and asserts equality with the given root. -/
def ssz_verify_proof_const {α : Type} [DecidableEq α] (H : α → α → α)
    (root leaf : α) (branch : List α) (gindex : Nat) : Option Bool :=
  (ssz_restore_merkle_root_const H leaf branch gindex).map
    (fun expected => decide (root = expected))

end SSZ

namespace SHA256

/-!
Modelled from the spec: the builder's 256-bit-input SHA-256 hash gadget is
used as a black box by the Merkle gadgets and is not part of the excerpted
source, so it is modelled here as FIPS 180-4 SHA-256 over lists of bytes
(naturals below 256); `r32` truncates to a 32-bit word.
-/

/-- Truncation of a natural to a 32-bit word. -/
def r32 (x : Nat) : Nat := x % 4294967296

/-- 32-bit right rotation. -/
def rotr (n x : Nat) : Nat := r32 ((x >>> n) ||| (x <<< (32 - n)))

/-- The 64 SHA-256 round constants. -/
def K : List Nat := [
  1116352408, 1899447441, 3049323471, 3921009573, 961987163, 1508970993, 2453635748, 2870763221,
  3624381080, 310598401, 607225278, 1426881987, 1925078388, 2162078206, 2614888103, 3248222580,
  3835390401, 4022224774, 264347078, 604807628, 770255983, 1249150122, 1555081692, 1996064986,
  2554220882, 2821834349, 2952996808, 3210313671, 3336571891, 3584528711, 113926993, 338241895,
  666307205, 773529912, 1294757372, 1396182291, 1695183700, 1986661051, 2177026350, 2456956037,
  2730485921, 2820302411, 3259730800, 3345764771, 3516065817, 3600352804, 4094571909, 275423344,
  430227734, 506948616, 659060556, 883997877, 958139571, 1322822218, 1537002063, 1747873779,
  1955562222, 2024104815, 2227730452, 2361852424, 2428436474, 2756734187, 3204031479, 3329325298]

/-- The SHA-256 initial hash value. -/
def initH : List Nat := [
  1779033703, 3144134277, 1013904242, 2773480762, 1359893119, 2600822924, 528734635, 1541459225]

/-- The SHA-256 choice function. -/
def ch (x y z : Nat) : Nat := (x &&& y) ^^^ ((x ^^^ 4294967295) &&& z)

/-- The SHA-256 majority function. -/
def maj (x y z : Nat) : Nat := (x &&& y) ^^^ (x &&& z) ^^^ (y &&& z)

/-- The SHA-256 big sigma-0 function. -/
def bsig0 (x : Nat) : Nat := (rotr 2 x) ^^^ (rotr 13 x) ^^^ (rotr 22 x)

/-- The SHA-256 big sigma-1 function. -/
def bsig1 (x : Nat) : Nat := (rotr 6 x) ^^^ (rotr 11 x) ^^^ (rotr 25 x)

/-- The SHA-256 small sigma-0 function. -/
def ssig0 (x : Nat) : Nat := (rotr 7 x) ^^^ (rotr 18 x) ^^^ (x >>> 3)

/-- The SHA-256 small sigma-1 function. -/
def ssig1 (x : Nat) : Nat := (rotr 17 x) ^^^ (rotr 19 x) ^^^ (x >>> 10)

/-- Extends the 16 words of a block to the 64-word message schedule. -/
def msgSchedule (ws : List Nat) : List Nat :=
  (List.range 48).foldl
    (fun acc _ =>
      let n := acc.length
      acc ++ [r32 (ssig1 (acc.getD (n - 2) 0) + acc.getD (n - 7) 0 +
        ssig0 (acc.getD (n - 15) 0) + acc.getD (n - 16) 0)])
    ws

/-- One SHA-256 compression round over the eight-word state. -/
def roundStep (st : List Nat) (kw : Nat × Nat) : List Nat :=
  let a := st.getD 0 0
  let b := st.getD 1 0
  let c := st.getD 2 0
  let d := st.getD 3 0
  let e := st.getD 4 0
  let f := st.getD 5 0
  let g := st.getD 6 0
  let h := st.getD 7 0
  let t1 := r32 (h + bsig1 e + ch e f g + kw.1 + kw.2)
  let t2 := r32 (bsig0 a + maj a b c)
  [r32 (t1 + t2), a, b, c, r32 (d + t1), e, f, g]

/-- The SHA-256 compression function over one 64-byte block. -/
def compress (hs : List Nat) (block : List Nat) : List Nat :=
  let ws0 := (List.range 16).map (fun j =>
    (block.getD (4 * j) 0 <<< 24) ||| (block.getD (4 * j + 1) 0 <<< 16) |||
      (block.getD (4 * j + 2) 0 <<< 8) ||| block.getD (4 * j + 3) 0)
  let ws := msgSchedule ws0
  let final := (List.zip K ws).foldl roundStep hs
  (List.range 8).map (fun i => r32 (hs.getD i 0 + final.getD i 0))

/-- SHA-256 padding: a `0x80` byte, zeros, and the 64-bit big-endian bit
length, to a multiple of 64 bytes. -/
def padMessage (msg : List Nat) : List Nat :=
  let L := msg.length
  let zeros := (119 - L % 64) % 64
  msg ++ 128 :: (List.replicate zeros 0 ++
    (List.range 8).map (fun i => ((8 * L) >>> (8 * (7 - i))) % 256))

/-- Splits a padded message into 64-byte blocks; the fuel argument (one unit
per byte, more than enough for 64-byte steps) keeps the recursion
structural. -/
def toBlocksFuel : Nat → List Nat → List (List Nat)
  | 0, _ => []
  | _, [] => []
  | fuel + 1, x :: xs => ((x :: xs).take 64) :: toBlocksFuel fuel ((x :: xs).drop 64)

/-- Splits a padded message into 64-byte blocks. -/
def toBlocks (l : List Nat) : List (List Nat) :=
  toBlocksFuel l.length l

/-- SHA-256 of a byte list, as a 32-byte list. -/
def sha256 (msg : List Nat) : List Nat :=
  let hs := (toBlocks (padMessage msg)).foldl compress initH
  (hs.map (fun w => (List.range 4).map (fun i => (w >>> (8 * (3 - i))) % 256))).flatten

/-- The gadget-shaped hash: `sha256_pair left right` hashes the 64-byte
concatenation `left ‖ right`, exactly the use the Merkle gadgets make of the
builder's `sha256` on their 64-byte `data` buffer. -/
def sha256_pair (a b : List Nat) : List Nat := sha256 (a ++ b)

end SHA256

/-- Flips every bit of the last byte of a byte list (xor with `0xff`),
producing a digest that differs from the original exactly in its last
byte. -/
def flipLastByte (xs : List Nat) : List Nat :=
  xs.take (xs.length - 1) ++ [(xs.getD (xs.length - 1) 0) ^^^ 255]

/-- The leaf digest `0xa1b2c3d4...` of the repository tests
`test_ssz_restore_merkle_root_const_equal` and friends (builder.rs). -/
def testLeaf : List Nat := [
  161, 178, 195, 212, 229, 246, 7, 24, 41, 26, 43, 60, 77, 94, 111, 112,
  129, 146, 162, 179, 196, 213, 230, 247, 161, 178, 195, 212, 229, 246, 7, 24]

/-- The first branch digest `0x12345678...` of the repository tests. -/
def testS0 : List Nat := [
  18, 52, 86, 120, 144, 171, 205, 239, 18, 52, 86, 120, 144, 171, 205, 239,
  18, 52, 86, 120, 144, 171, 205, 239, 18, 52, 86, 120, 144, 171, 205, 239]

/-- The second branch digest `0xfedcba09...` of the repository tests. -/
def testS1 : List Nat := [
  254, 220, 186, 9, 135, 101, 67, 33, 254, 220, 186, 9, 135, 101, 67, 33,
  254, 220, 186, 9, 135, 101, 67, 33, 254, 220, 186, 9, 135, 101, 67, 33]

/-- The expected root `0xac075798...` hard-coded by the repository test
`test_ssz_restore_merkle_root_const_equal`. -/
def testRoot : List Nat := [
  172, 7, 87, 152, 45, 23, 35, 31, 40, 172, 51, 192, 143, 29, 215, 244,
  32, 166, 12, 236, 37, 191, 81, 122, 201, 233, 179, 93, 133, 67, 8, 47]

namespace Vars

/-!
Shallow embedding of the `CircuitVariable` layer.  Circuit wires (plonky2
`Target`s) are naturals, allocated sequentially by a `Builder` whose state
is the list of already-allocated wires together with the constant value
fixed on each (0 for unconstrained wires); a witness is a total assignment
of field values (modelled as naturals) to wires.  `ByteVariable` and
`BeaconValidatorVariable` are translated from `src/plonky2x/src/vars/byte.rs`
and `src/plonky2x/src/eth/beacon/vars/validator.rs`; `BoolVariable`,
`BLSPubkeyVariable`, `Bytes32Variable` and `U256Variable` are modelled from
the spec (their source is not excerpted): a bool is one field element that
reads back as `true` exactly on the value 1, byte sequences are strict
concatenations of `ByteVariable`s, and a `U256Variable` is four 64-bit
little-endian field-element limbs.  The `hex!`/`bytes!` string conversions
are modelled as the identity on byte lists.
-/

/-- A circuit wire identifier. -/
abbrev Target := Nat

/-- A witness: a total assignment of field values to wires. -/
abbrev Witness := Nat → Nat

/-- The circuit builder state: the allocated wires, with the constant fixed
on each (0 for unconstrained wires). -/
structure Builder where
  wires : List Nat
deriving DecidableEq

/-- The empty builder. -/
def Builder.emptyB : Builder := ⟨[]⟩

/-- The witness induced by a builder's fixed constants. -/
def witnessOf (b : Builder) : Witness :=
  fun t => b.wires.getD t 0

/-- Overwrites one wire of a witness. -/
def writeWire (t : Target) (v : Nat) (w : Witness) : Witness :=
  fun s => if s = t then v else w s

/-- Modelled from the spec: a boolean flag variable is a single field
element. -/
structure BoolVariable where
  t : Target
deriving DecidableEq

instance : Inhabited BoolVariable := ⟨⟨0⟩⟩

/-- Modelled from the spec: allocates one fresh unconstrained wire. -/
def BoolVariable.init (b : Builder) : BoolVariable × Builder :=
  (⟨b.wires.length⟩, ⟨b.wires ++ [0]⟩)

/-- Modelled from the spec: allocates one wire fixed to 1 or 0. -/
def BoolVariable.constant (b : Builder) (v : Bool) : BoolVariable × Builder :=
  (⟨b.wires.length⟩, ⟨b.wires ++ [if v then 1 else 0]⟩)

/-- Modelled from the spec: a bool variable's wires. -/
def BoolVariable.targets (x : BoolVariable) : List Target := [x.t]

/-- Modelled from the spec: rebuilds a bool variable from one wire. -/
def BoolVariable.from_targets (ts : List Target) : BoolVariable :=
  ⟨ts.getD 0 0⟩

/-- Modelled from the spec: a bool variable reads back `true` exactly when
its field element is 1. -/
def BoolVariable.value (w : Witness) (x : BoolVariable) : Bool :=
  w x.t == 1

/-- Modelled from the spec: writes 1 or 0 into the bool's wire. -/
def BoolVariable.set (x : BoolVariable) (w : Witness) (v : Bool) : Witness :=
  writeWire x.t (if v then 1 else 0) w

/-- The big-endian bit encoding a byte constant fixes on its eight wires
(byte.rs lines 19-25): position `i` holds bit `7 - i` of the value. -/
def byteEnc (v : Nat) : List Nat :=
  (List.range 8).map (fun i => if ((1 <<< (7 - i)) &&& v) != 0 then 1 else 0)

/-- `ByteVariable` (byte.rs line 10): eight bits stored in big endian. -/
structure ByteVariable where
  bits : List BoolVariable
deriving DecidableEq

/-- `ByteVariable::init` (byte.rs lines 15-17): eight fresh bool wires,
allocated sequentially. -/
def ByteVariable.init (b : Builder) : ByteVariable × Builder :=
  (⟨(List.range 8).map (fun i => ⟨b.wires.length + i⟩)⟩,
    ⟨b.wires ++ List.replicate 8 0⟩)

/-- `ByteVariable::constant` (byte.rs lines 19-25): eight bool constants
holding the big-endian bits `((1 << (7 - i)) & value) != 0`. -/
def ByteVariable.constant (b : Builder) (v : Nat) : ByteVariable × Builder :=
  (⟨(List.range 8).map (fun i => ⟨b.wires.length + i⟩)⟩,
    ⟨b.wires ++ byteEnc v⟩)

/-- `ByteVariable::value` (byte.rs lines 27-34): sums `(1 << (7 - i))` over
the set bits and casts the `u64` accumulator to `u8` (reduction mod 256). -/
def ByteVariable.value (w : Witness) (x : ByteVariable) : Nat :=
  (((List.range 8).map (fun i =>
    (1 <<< (7 - i)) * (if BoolVariable.value w (x.bits.getD i ⟨0⟩) then 1
      else 0))).sum) % 256

/-- `ByteVariable::set` (byte.rs lines 36-43): writes the big-endian bits of
the value into the eight bool wires in order. -/
def ByteVariable.set (x : ByteVariable) (w : Witness) (v : Nat) : Witness :=
  (List.range 8).foldl
    (fun acc i =>
      BoolVariable.set (x.bits.getD i ⟨0⟩) acc (((1 <<< (7 - i)) &&& v) != 0))
    w

/-- Modelled from the spec: a byte's wires in bit order. -/
def ByteVariable.targets (x : ByteVariable) : List Target :=
  x.bits.map (fun bb => bb.t)

/-- Modelled from the spec: rebuilds a byte from eight bit wires. -/
def ByteVariable.from_targets (ts : List Target) : ByteVariable :=
  ⟨ts.map (fun t => ⟨t⟩)⟩

/-- Sequential `init` of a run of byte variables. -/
def bytesInit (b : Builder) : Nat → List ByteVariable × Builder
  | 0 => ([], b)
  | n + 1 =>
      let p := ByteVariable.init b
      let q := bytesInit p.2 n
      (p.1 :: q.1, q.2)

/-- Sequential `constant` of a run of byte variables. -/
def bytesConstant (b : Builder) : List Nat → List ByteVariable × Builder
  | [] => ([], b)
  | v :: vs =>
      let p := ByteVariable.constant b v
      let q := bytesConstant p.2 vs
      (p.1 :: q.1, q.2)

/-- The wire constants a run of byte constants fixes. -/
def bytesEnc (vs : List Nat) : List Nat :=
  (vs.map byteEnc).flatten

/-- Concatenated wires of a run of bytes. -/
def bytesTargets (xs : List ByteVariable) : List Target :=
  (xs.map ByteVariable.targets).flatten

/-- Rebuilds a run of bytes from wires, eight at a time. -/
def bytesFromTargets : List Target → List ByteVariable
  | t1 :: t2 :: t3 :: t4 :: t5 :: t6 :: t7 :: t8 :: rest =>
      ByteVariable.from_targets [t1, t2, t3, t4, t5, t6, t7, t8] ::
        bytesFromTargets rest
  | _ => []

/-- Reads a run of bytes back. -/
def bytesValue (w : Witness) (xs : List ByteVariable) : List Nat :=
  xs.map (ByteVariable.value w)

/-- Writes a run of byte values. -/
def bytesSet (xs : List ByteVariable) (w : Witness) (vs : List Nat) :
    Witness :=
  (xs.zip vs).foldl (fun acc p => ByteVariable.set p.1 acc p.2) w

/-- Modelled from the spec: a BLS public key is a fixed run of 48 bytes. -/
structure BLSPubkeyVariable where
  bytes : List ByteVariable
deriving DecidableEq

/-- Modelled from the spec: rebuilds a pubkey from 384 bit wires. -/
def BLSPubkeyVariable.from_targets (ts : List Target) : BLSPubkeyVariable :=
  ⟨bytesFromTargets ts⟩

/-- Modelled from the spec: a 256-bit digest is a fixed run of 32 bytes. -/
structure Bytes32Variable where
  bytes : List ByteVariable
deriving DecidableEq

/-- Modelled from the spec: rebuilds a digest from 256 bit wires. -/
def Bytes32Variable.from_targets (ts : List Target) : Bytes32Variable :=
  ⟨bytesFromTargets ts⟩

/-- The little-endian 64-bit limb decomposition a `U256` constant fixes on
its four wires. -/
def u256Enc (v : Nat) : List Nat :=
  (List.range 4).map (fun j => (v >>> (64 * j)) % (2 ^ 64))

/-- Modelled from the spec: a wide 256-bit unsigned integer stored as four
64-bit little-endian field-element limbs. -/
structure U256Variable where
  limbs : List Target
deriving DecidableEq

/-- Modelled from the spec: four fresh unconstrained limb wires. -/
def U256Variable.init (b : Builder) : U256Variable × Builder :=
  (⟨(List.range 4).map (fun j => b.wires.length + j)⟩,
    ⟨b.wires ++ List.replicate 4 0⟩)

/-- Modelled from the spec: four limb wires fixed to the value's 64-bit
little-endian limbs. -/
def U256Variable.constant (b : Builder) (v : Nat) : U256Variable × Builder :=
  (⟨(List.range 4).map (fun j => b.wires.length + j)⟩, ⟨b.wires ++ u256Enc v⟩)

/-- Modelled from the spec: a U256's wires. -/
def U256Variable.targets (x : U256Variable) : List Target := x.limbs

/-- Modelled from the spec: rebuilds a U256 from four limb wires. -/
def U256Variable.from_targets (ts : List Target) : U256Variable := ⟨ts⟩

/-- Little-endian Horner sum of limb wires. -/
def limbsValue (w : Witness) : List Target → Nat
  | [] => 0
  | t :: ts => w t + 2 ^ 64 * limbsValue w ts

/-- Modelled from the spec: reads a U256 value back from its limbs. -/
def U256Variable.value (w : Witness) (x : U256Variable) : Nat :=
  limbsValue w x.limbs

/-- Modelled from the spec: writes the value's limbs into the four limb
wires. -/
def U256Variable.set (x : U256Variable) (w : Witness) (v : Nat) : Witness :=
  (x.limbs.zip (u256Enc v)).foldl (fun acc p => writeWire p.1 p.2 acc) w

/-- Modelled from the spec: `U256::as_u64` of the ethers library panics when
the value exceeds `u64::MAX`; the panic is modelled as `none`. -/
def u256_as_u64 (n : Nat) : Option Nat :=
  if n < 2 ^ 64 then some n else none

/-- Modelled from the spec: the beacon-chain validator record
(`ethutils::beacon::BeaconValidator`, not excerpted): pubkey (48 bytes) and
withdrawal credentials (32 bytes) as byte lists, `u64` balance and epochs,
with the exit and withdrawable epochs optional.  The `hex!`/`bytes!`
hex-string conversions are the identity here. -/
structure BeaconValidator where
  pubkey : List Nat
  withdrawal_credentials : List Nat
  effective_balance : Nat
  slashed : Bool
  activation_eligibility_epoch : Nat
  activation_epoch : Nat
  exit_epoch : Option Nat
  withdrawable_epoch : Option Nat
deriving DecidableEq

/-- `BeaconValidatorVariable` (validator.rs lines 38-48). -/
structure BeaconValidatorVariable where
  pubkey : BLSPubkeyVariable
  withdrawal_credentials : Bytes32Variable
  effective_balance : U256Variable
  slashed : BoolVariable
  activation_eligibility_epoch : U256Variable
  activation_epoch : U256Variable
  exit_epoch : U256Variable
  withdrawable_epoch : U256Variable
deriving DecidableEq

/-- `BeaconValidatorVariable::init` (validator.rs lines 53-66): component
variables allocated in field order. -/
def BeaconValidatorVariable.init (b : Builder) :
    BeaconValidatorVariable × Builder :=
  let pk := bytesInit b 48
  let wc := bytesInit pk.2 32
  let eb := U256Variable.init wc.2
  let sl := BoolVariable.init eb.2
  let aee := U256Variable.init sl.2
  let ae := U256Variable.init aee.2
  let ee := U256Variable.init ae.2
  let we := U256Variable.init ee.2
  ({ pubkey := ⟨pk.1⟩, withdrawal_credentials := ⟨wc.1⟩,
     effective_balance := eb.1, slashed := sl.1,
     activation_eligibility_epoch := aee.1, activation_epoch := ae.1,
     exit_epoch := ee.1, withdrawable_epoch := we.1 }, we.2)

/-- `BeaconValidatorVariable::constant` (validator.rs lines 68-91): constants
in field order; a `None` exit or withdrawable epoch is collapsed to 0 by
`unwrap_or(0)`. -/
def BeaconValidatorVariable.constant (b : Builder) (v : BeaconValidator) :
    BeaconValidatorVariable × Builder :=
  let pk := bytesConstant b v.pubkey
  let wc := bytesConstant pk.2 v.withdrawal_credentials
  let eb := U256Variable.constant wc.2 v.effective_balance
  let sl := BoolVariable.constant eb.2 v.slashed
  let aee := U256Variable.constant sl.2 v.activation_eligibility_epoch
  let ae := U256Variable.constant aee.2 v.activation_epoch
  let ee := U256Variable.constant ae.2 (v.exit_epoch.getD 0)
  let we := U256Variable.constant ee.2 (v.withdrawable_epoch.getD 0)
  ({ pubkey := ⟨pk.1⟩, withdrawal_credentials := ⟨wc.1⟩,
     effective_balance := eb.1, slashed := sl.1,
     activation_eligibility_epoch := aee.1, activation_epoch := ae.1,
     exit_epoch := ee.1, withdrawable_epoch := we.1 }, we.2)

/-- `BeaconValidatorVariable::targets` (validator.rs lines 93-104): the
component wires concatenated in field order. -/
def BeaconValidatorVariable.targets (x : BeaconValidatorVariable) :
    List Target :=
  bytesTargets x.pubkey.bytes ++
    (bytesTargets x.withdrawal_credentials.bytes ++
      (x.effective_balance.limbs ++
        (BoolVariable.targets x.slashed ++
          (x.activation_eligibility_epoch.limbs ++
            (x.activation_epoch.limbs ++
              (x.exit_epoch.limbs ++ x.withdrawable_epoch.limbs))))))

/-- `BeaconValidatorVariable::from_targets` (validator.rs lines 106-133):
slices 384 + 256 + 4 + 1 + 4 + 4 + 4 + 4 wires off the input in order. -/
def BeaconValidatorVariable.from_targets (ts : List Target) :
    BeaconValidatorVariable :=
  { pubkey := BLSPubkeyVariable.from_targets (ts.take 384),
    withdrawal_credentials :=
      Bytes32Variable.from_targets ((ts.drop 384).take 256),
    effective_balance := U256Variable.from_targets ((ts.drop 640).take 4),
    slashed := BoolVariable.from_targets ((ts.drop 644).take 1),
    activation_eligibility_epoch :=
      U256Variable.from_targets ((ts.drop 645).take 4),
    activation_epoch := U256Variable.from_targets ((ts.drop 649).take 4),
    exit_epoch := U256Variable.from_targets ((ts.drop 653).take 4),
    withdrawable_epoch := U256Variable.from_targets ((ts.drop 657).take 4) }

/-- `BeaconValidatorVariable::value` (validator.rs lines 135-146): reads each
component back, converting the `U256` fields with `as_u64` (whose overflow
panic is `none`); the exit and withdrawable epochs always come back as
`Some`. -/
def BeaconValidatorVariable.value (w : Witness) (x : BeaconValidatorVariable) :
    Option BeaconValidator :=
  (u256_as_u64 (U256Variable.value w x.effective_balance)).bind fun eb =>
    (u256_as_u64 (U256Variable.value w x.activation_eligibility_epoch)).bind
      fun aee =>
      (u256_as_u64 (U256Variable.value w x.activation_epoch)).bind fun ae =>
        (u256_as_u64 (U256Variable.value w x.exit_epoch)).bind fun ee =>
          (u256_as_u64 (U256Variable.value w x.withdrawable_epoch)).bind
            fun we =>
            some
              { pubkey := bytesValue w x.pubkey.bytes,
                withdrawal_credentials :=
                  bytesValue w x.withdrawal_credentials.bytes,
                effective_balance := eb,
                slashed := BoolVariable.value w x.slashed,
                activation_eligibility_epoch := aee,
                activation_epoch := ae,
                exit_epoch := some ee,
                withdrawable_epoch := some we }

/-- `BeaconValidatorVariable::set` (validator.rs lines 148-163): writes each
component in field order, collapsing `None` epochs to 0. -/
def BeaconValidatorVariable.set (x : BeaconValidatorVariable) (w : Witness)
    (v : BeaconValidator) : Witness :=
  let w1 := bytesSet x.pubkey.bytes w v.pubkey
  let w2 := bytesSet x.withdrawal_credentials.bytes w1
    v.withdrawal_credentials
  let w3 := U256Variable.set x.effective_balance w2 v.effective_balance
  let w4 := BoolVariable.set x.slashed w3 v.slashed
  let w5 := U256Variable.set x.activation_eligibility_epoch w4
    v.activation_eligibility_epoch
  let w6 := U256Variable.set x.activation_epoch w5 v.activation_epoch
  let w7 := U256Variable.set x.exit_epoch w6 (v.exit_epoch.getD 0)
  U256Variable.set x.withdrawable_epoch w7 (v.withdrawable_epoch.getD 0)

/-- Structural well-formedness of a run of byte variables: `n` bytes of
eight bits each (every value the Rust types allow). -/
def bytesWfb (xs : List ByteVariable) (n : Nat) : Bool :=
  xs.length == n && xs.all (fun bb => bb.bits.length == 8)

/-- Structural well-formedness of a `BeaconValidatorVariable`: the component
wire counts the Rust types fix (48 and 32 bytes, four-limb integers). -/
def BeaconValidatorVariable.wfb (x : BeaconValidatorVariable) : Bool :=
  bytesWfb x.pubkey.bytes 48 &&
    bytesWfb x.withdrawal_credentials.bytes 32 &&
    (x.effective_balance.limbs.length == 4) &&
    (x.activation_eligibility_epoch.limbs.length == 4) &&
    (x.activation_epoch.limbs.length == 4) &&
    (x.exit_epoch.limbs.length == 4) &&
    (x.withdrawable_epoch.limbs.length == 4)

/-- Value-domain well-formedness of a `BeaconValidator` (every value the
Rust types allow: 48 pubkey bytes, 32 credential bytes, `u64` balance and
epochs). -/
def BeaconValidator.wfb (v : BeaconValidator) : Bool :=
  v.pubkey.length == 48 && v.pubkey.all (fun u => u < 256) &&
    v.withdrawal_credentials.length == 32 &&
    v.withdrawal_credentials.all (fun u => u < 256) &&
    (v.effective_balance < 2 ^ 64) &&
    (v.activation_eligibility_epoch < 2 ^ 64) &&
    (v.activation_epoch < 2 ^ 64) &&
    (v.exit_epoch.getD 0 < 2 ^ 64) &&
    (v.withdrawable_epoch.getD 0 < 2 ^ 64)

/-- A concrete validator record with both optional epochs absent. -/
def sampleValidatorNone : BeaconValidator :=
  { pubkey := List.replicate 48 1,
    withdrawal_credentials := List.replicate 32 2,
    effective_balance := 3, slashed := false,
    activation_eligibility_epoch := 4, activation_epoch := 5,
    exit_epoch := none, withdrawable_epoch := none }

/-- A concrete validator record with both optional epochs present. -/
def sampleValidatorSome : BeaconValidator :=
  { pubkey := List.replicate 48 1,
    withdrawal_credentials := List.replicate 32 2,
    effective_balance := 3, slashed := true,
    activation_eligibility_epoch := 4, activation_epoch := 5,
    exit_epoch := some 7, withdrawable_epoch := some 9 }

end Vars
namespace Beacon

/-!
Trace embedding of the beacon builder methods
(`src/plonky2x/src/frontend/eth/beacon/builder.rs` lines 15-106): each
method is recorded as the list of circuit-composition operations it
performs on the builder — the generator it attaches and any SSZ
Merkle-proof verification it adds — in source order.
-/

/-- The external-data generators the beacon builder methods attach. -/
inductive GeneratorKind where
  | validatorsRoot
  | validatorWithIndexVariable
  | validatorWithIndexConst (index : Nat)
  | validatorWithPubkeyVariable
  | balanceWithIndexVariable
  | balanceWithPubkeyVariable
deriving DecidableEq

/-- The builder operations the beacon methods perform: attaching a simple
generator, or adding a constant-index SSZ Merkle-proof verification. -/
inductive BuilderOp where
  | addSimpleGenerator (g : GeneratorKind)
  | sszVerifyProofConst (gindex : Nat)
deriving DecidableEq

/-- `beacon_get_validators` (builder.rs lines 17-40): attaches the
validators-root generator, then verifies its output against the block root
at the constant generalized index 363 before returning. -/
def beacon_get_validators_ops : List BuilderOp :=
  [BuilderOp.addSimpleGenerator GeneratorKind.validatorsRoot,
    BuilderOp.sszVerifyProofConst 363]

/-- `beacon_get_validator` (builder.rs lines 43-52): attaches the
validator generator for a dynamic index and returns its output. -/
def beacon_get_validator_ops : List BuilderOp :=
  [BuilderOp.addSimpleGenerator GeneratorKind.validatorWithIndexVariable]

/-- `beacon_get_validator_const` (builder.rs lines 55-64): attaches the
validator generator for a constant index and returns its output. -/
def beacon_get_validator_const_ops (index : Nat) : List BuilderOp :=
  [BuilderOp.addSimpleGenerator (GeneratorKind.validatorWithIndexConst index)]

/-- `beacon_get_validator_by_pubkey` (builder.rs lines 67-76): attaches the
validator generator for a pubkey and returns its output. -/
def beacon_get_validator_by_pubkey_ops : List BuilderOp :=
  [BuilderOp.addSimpleGenerator GeneratorKind.validatorWithPubkeyVariable]

/-- `beacon_get_validator_balance` (builder.rs lines 79-91): attaches the
balance generator for a dynamic index and returns its output. -/
def beacon_get_validator_balance_ops : List BuilderOp :=
  [BuilderOp.addSimpleGenerator GeneratorKind.balanceWithIndexVariable]

/-- `beacon_get_validator_balance_by_pubkey` (builder.rs lines 94-106):
attaches the balance generator for a pubkey and returns its output. -/
def beacon_get_validator_balance_by_pubkey_ops : List BuilderOp :=
  [BuilderOp.addSimpleGenerator GeneratorKind.balanceWithPubkeyVariable]

/-- Whether an operation is a Merkle-proof verification. -/
def isMerkleVerification : BuilderOp → Bool
  | BuilderOp.sszVerifyProofConst _ => true
  | _ => false

end Beacon

namespace Pipeline

/-!
Embedding of the map and reduce branches of the example pipeline driver
(`src/examples/beacon-validator-statistics/src/main.rs`).  The proving
backend is abstract: `prove` may fail (`Err`/panic modelled as `none`),
`verify` returns whether the produced proof checks, `encode` is the
hex-over-proof-bytes serialization into the output record.  Every `unwrap`
on a failing step aborts the process, modelled as `none`.
-/

/-- Collects a list of decode results, failing if any single decode fails
(each `hex::decode(..).unwrap()` / `read_proof_with_public_inputs(..)
.unwrap()` aborts the stage). -/
def collectSome {β : Type} : List (Option β) → Option (List β)
  | [] => some []
  | none :: _ => none
  | some x :: rest => (collectSome rest).map (fun l => x :: l)

/-- The map branch (main.rs lines 57-86): parse the input values (unwrap),
build the partial witness, `prove` (unwrap), `verify` the produced proof
(unwrap), and only then serialize it into the output record. -/
def mapStage {W P : Type} (parseInputs : String → Option (List Nat))
    (mkWitness : List Nat → W) (prove : W → Option P) (verify : P → Bool)
    (encode : P → String) (inputArg : String) : Option String :=
  match parseInputs inputArg with
  | none => none
  | some vals =>
      match prove (mkWitness vals) with
      | none => none
      | some proof => if verify proof then some (encode proof) else none

/-- The reduce branch (main.rs lines 87-122): decode every incoming proof
(unwrap each), bind them as proof-target assignments, `prove` (unwrap),
`verify` the produced proof (unwrap), and only then serialize it into the
output record. -/
def reduceStage {W P : Type} (decodeProof : String → Option P)
    (mkWitness : List P → W) (prove : W → Option P) (verify : P → Bool)
    (encode : P → String) (proofArgs : List String) : Option String :=
  match collectSome (proofArgs.map decodeProof) with
  | none => none
  | some proofs =>
      match prove (mkWitness proofs) with
      | none => none
      | some proof => if verify proof then some (encode proof) else none

end Pipeline

namespace SSZ

/-- The two loop bodies perform the same fold: bit `i` tested via
`Nat.testBit` in the dynamic loop and via `(gindex >>> i) &&& 1 = 1` in the
constant loop select the same concatenation order at every level. -/
theorem restore_loops_agree {α : Type} (H : α → α → α) (gindex : Nat) :
    ∀ (branch : List α) (i : Nat) (hash : α),
      ssz_restore_merkle_root_loop H gindex i hash branch =
        ssz_restore_merkle_root_const_loop H gindex i hash branch := by
  intro branch
  induction branch with
  | nil => intro i hash; rfl
  | cons b rest ih =>
      intro i hash
      have hbit : (gindex >>> i % 2 = 1) ↔ gindex.testBit i = true := by
        rw [Nat.testBit_to_div_mod, Nat.shiftRight_eq_div_pow]
        simp
      simp only [ssz_restore_merkle_root_loop, ssz_restore_merkle_root_const_loop,
        select, Nat.and_one_is_mod]
      rw [ih]
      by_cases hb : gindex.testBit i
      · rw [if_pos hb, if_pos (hbit.mpr hb)]
      · rw [if_neg hb, if_neg (fun hc => hb (hbit.mp hc))]

/-- The `u64` bound check of the constant-index gadget succeeds exactly on
the mathematical bound as long as `branch.length + 1 < 64`, where the power
does not overflow. -/
theorem const_guard_no_overflow {α : Type} (H : α → α → α) (leaf : α)
    (branch : List α) (gindex : Nat) (hk : branch.length ≤ 62)
    (hi : gindex < 2 ^ (branch.length + 1)) :
    ssz_restore_merkle_root_const H leaf branch gindex =
      some (ssz_restore_merkle_root_const_loop H gindex 0 leaf branch) := by
  have hlt : 2 ^ (branch.length + 1) < 2 ^ 64 :=
    Nat.pow_lt_pow_right (by norm_num) (by omega)
  unfold ssz_restore_merkle_root_const
  rw [Nat.mod_eq_of_lt hlt, if_pos hi]

/-- C1 (amended): for a branch of length `k ≤ 62` and a generalized index
`i` with `2 ^ (k + 1) > i`, the constant-index gadget
`ssz_restore_merkle_root_const` and the dynamic-index gadget
`ssz_restore_merkle_root` (driven by the little-endian bits of the index)
construct successfully and compute identical root values, for every choice
of the 256-bit-input hash gadget `H`.  (For `k ≥ 63` the constant-index
gadget's `u64` bound check overflows and construction fails, see the
counterexample.) -/
theorem claim_C1_dynamic_and_const_agree {α : Type} (H : α → α → α)
    (leaf : α) (branch : List α) (gindex : Nat) (hk : branch.length ≤ 62)
    (hi : gindex < 2 ^ (branch.length + 1)) :
    ssz_restore_merkle_root_const H leaf branch gindex =
        ssz_restore_merkle_root H leaf branch gindex ∧
      (ssz_restore_merkle_root_const H leaf branch gindex).isSome = true := by
  have hguard := const_guard_no_overflow H leaf branch gindex hk hi
  constructor
  · rw [hguard]
    unfold ssz_restore_merkle_root
    rw [if_pos (by omega), restore_loops_agree]
  · rw [hguard]
    rfl

/-- Witness for C1 at the concrete triple `leaf = 3`, `branch = [5, 7]`,
`gindex = 2` with hash `H a b = a + 2 * b`. -/
theorem claim_C1_witness :
    ssz_restore_merkle_root_const (fun a b : Nat => a + 2 * b) 3 [5, 7] 2 =
        ssz_restore_merkle_root (fun a b : Nat => a + 2 * b) 3 [5, 7] 2 ∧
      (ssz_restore_merkle_root_const (fun a b : Nat => a + 2 * b)
          3 [5, 7] 2).isSome = true :=
  claim_C1_dynamic_and_const_agree (fun a b : Nat => a + 2 * b) 3 [5, 7] 2
    (by decide) (by decide)

/-- Counterexample to C1 as stated: at branch length `k = 63` and `i = 0`
the claimed bound `2 ^ (k + 1) > i` holds, and the dynamic-index gadget
computes a root, but `ssz_restore_merkle_root_const` fails at construction
(its `2u64.pow(64)` bound check overflows), so the two gadgets do not
compute identical root values for every triple satisfying the bound. -/
theorem claim_C1_counterexample :
    2 ^ (63 + 1) > 0 ∧
      (ssz_restore_merkle_root (fun a b : Nat => a + 2 * b) 0
          (List.replicate 63 1) 0).isSome = true ∧
      ssz_restore_merkle_root_const (fun a b : Nat => a + 2 * b) 0
          (List.replicate 63 1) 0 = none := by
  refine ⟨by norm_num, by decide, ?_⟩
  have hz : 2 ^ ((List.replicate 63 (1 : Nat)).length + 1) % 2 ^ 64 = 0 := by
    simp
  unfold ssz_restore_merkle_root_const
  rw [hz]
  simp

/-- C3 (amended): constructing the constant-index gadget with
`i ≥ 2 ^ (k + 1)` always fails at circuit-construction time (for any `u64`
index `i`), and for every branch length `k ≤ 62` and every `i` with
`2 ^ (k + 1) > i` the construction proceeds.  (For `k ≥ 63` construction
fails for every index because the bound check overflows `u64`.) -/
theorem claim_C3_bound_check {α : Type} (H : α → α → α) (leaf : α)
    (branch : List α) (gindex : Nat) (hg : gindex < 2 ^ 64) :
    (2 ^ (branch.length + 1) ≤ gindex →
        ssz_restore_merkle_root_const H leaf branch gindex = none) ∧
      (branch.length ≤ 62 → gindex < 2 ^ (branch.length + 1) →
        (ssz_restore_merkle_root_const H leaf branch gindex).isSome = true) :=
  by
  constructor
  · intro hge
    have hlt : 2 ^ (branch.length + 1) < 2 ^ 64 := by omega
    unfold ssz_restore_merkle_root_const
    rw [Nat.mod_eq_of_lt hlt, if_neg (by omega)]
  · intro hk hi
    rw [const_guard_no_overflow H leaf branch gindex hk hi]
    rfl

/-- Witness for C3: at branch `[1]` and index `8 ≥ 2 ^ 2`, construction
fails. -/
theorem claim_C3_witness :
    (2 ^ (([1] : List Nat).length + 1) ≤ 8 →
        ssz_restore_merkle_root_const (fun a b : Nat => a + b) 0 [1] 8 =
          none) ∧
      (([1] : List Nat).length ≤ 62 → 8 < 2 ^ (([1] : List Nat).length + 1) →
        (ssz_restore_merkle_root_const (fun a b : Nat => a + b)
            0 [1] 8).isSome = true) :=
  claim_C3_bound_check (fun a b : Nat => a + b) 0 [1] 8 (by decide)

/-- Counterexample to C3 as stated: with branch length `k = 63` and
`i = 1 < 2 ^ 64` the construction does not proceed, although the claim
demands that it proceed for every `i` with `2 ^ (k + 1) > i`. -/
theorem claim_C3_counterexample :
    2 ^ (63 + 1) > 1 ∧
      ssz_restore_merkle_root_const (fun a b : Nat => a + b) 5
          (List.replicate 63 2) 1 = none := by
  refine ⟨by norm_num, ?_⟩
  have hz : 2 ^ ((List.replicate 63 (2 : Nat)).length + 1) % 2 ^ 64 = 0 := by
    simp
  unfold ssz_restore_merkle_root_const
  rw [hz]
  simp

/-- C10: for every branch of length at least 63 and every `u64` generalized
index (in particular every index satisfying the spec's bound
`2 ^ (branch_len + 1) > gindex`, which at these lengths is every `u64`
value), `ssz_restore_merkle_root_const` fails at circuit-construction time:
its bound check computes `2u64.pow(branch_len + 1)`, which overflows `u64`
(panicking in a debug build, or wrapping to `0` and falsifying the
assertion in a release build). -/
theorem claim_C10_const_construction_overflow {α : Type} (H : α → α → α)
    (leaf : α) (branch : List α) (gindex : Nat) (hk : 63 ≤ branch.length)
    (hg : gindex < 2 ^ 64) :
    ssz_restore_merkle_root_const H leaf branch gindex = none := by
  obtain ⟨c, hc⟩ : 2 ^ 64 ∣ 2 ^ (branch.length + 1) :=
    pow_dvd_pow 2 (by omega)
  unfold ssz_restore_merkle_root_const
  rw [hc, Nat.mul_mod_right, if_neg (by omega)]

/-- Witness for C10 at branch length 63 and the concrete gindex 363. -/
theorem claim_C10_witness :
    ssz_restore_merkle_root_const (fun a b : Nat => a * b + 1) 4
        (List.replicate 63 9) 363 = none :=
  claim_C10_const_construction_overflow (fun a b : Nat => a * b + 1) 4
    (List.replicate 63 9) 363 (by decide) (by norm_num)

set_option maxRecDepth 1000000 in
/-- SHA-256 sanity check against the FIPS 180-4 test vector for the message
`"abc"`. -/
theorem sha256_abc_vector : SHA256.sha256 [97, 98, 99] = [
    186, 120, 22, 191, 143, 1, 207, 234, 65, 65, 64, 222, 93, 174, 34, 35,
    176, 3, 97, 163, 150, 23, 122, 156, 180, 16, 255, 97, 242, 0, 21, 173] := by
  decide

set_option maxRecDepth 1000000 in
/-- C2 (amended): for a leaf `D`, branch `[S0, S1]` (lowest level first) and
generalized index 2 (binary `10`), `ssz_restore_merkle_root_const`
recomputes the root as `H(S1 ‖ H(D ‖ S0))` — level 0 pairs the running hash
with `S0` on the right (bit 0 of the index is 0) and level 1 pairs `S1` on
the left (bit 1 is 1) — and `ssz_verify_proof_const` verifies exactly that
root and fails for every other root, in particular one whose last byte is
flipped.  On the repository test values the restored root is the test's
hard-coded `0xac0757...` digest. -/
theorem claim_C2_const_gadget_index_two :
    (∀ d s0 s1 : List Nat,
        ssz_restore_merkle_root_const SHA256.sha256_pair d [s0, s1] 2 =
            some (SHA256.sha256_pair s1 (SHA256.sha256_pair d s0)) ∧
          ssz_verify_proof_const SHA256.sha256_pair
              (SHA256.sha256_pair s1 (SHA256.sha256_pair d s0)) d [s0, s1]
              2 = some true ∧
          ∀ r, r ≠ SHA256.sha256_pair s1 (SHA256.sha256_pair d s0) →
            ssz_verify_proof_const SHA256.sha256_pair r d [s0, s1] 2 =
              some false) ∧
      ssz_restore_merkle_root_const SHA256.sha256_pair testLeaf
          [testS0, testS1] 2 = some testRoot := by
  constructor
  · intro d s0 s1
    have hres : ssz_restore_merkle_root_const SHA256.sha256_pair d [s0, s1]
        2 = some (SHA256.sha256_pair s1 (SHA256.sha256_pair d s0)) := rfl
    refine ⟨hres, ?_, ?_⟩
    · simp [ssz_verify_proof_const, hres]
    · intro r hr
      simp [ssz_verify_proof_const, hres, hr]
  · decide

set_option maxRecDepth 1000000 in
/-- Witness for C2 at the repository test values: a root with its last byte
flipped fails verification. -/
theorem claim_C2_witness :
    ssz_verify_proof_const SHA256.sha256_pair
        (flipLastByte (SHA256.sha256_pair testS1
          (SHA256.sha256_pair testLeaf testS0)))
        testLeaf [testS0, testS1] 2 = some false :=
  ((claim_C2_const_gadget_index_two.1 testLeaf testS0 testS1).2.2
    (flipLastByte (SHA256.sha256_pair testS1
      (SHA256.sha256_pair testLeaf testS0)))
    (by decide))

set_option maxRecDepth 1000000 in
/-- Counterexample to C2 as stated: on the repository test values the
constant-index gadget restores the test's `0xac0757...` root, which is
`H(S1 ‖ H(D ‖ S0))`, and verification against the claimed root
`H(S0 ‖ H(D ‖ S1))` fails. -/
theorem claim_C2_counterexample :
    ssz_restore_merkle_root_const SHA256.sha256_pair testLeaf
        [testS0, testS1] 2 = some testRoot ∧
      SHA256.sha256_pair testS0 (SHA256.sha256_pair testLeaf testS1) ≠
        testRoot ∧
      ssz_verify_proof_const SHA256.sha256_pair
          (SHA256.sha256_pair testS0 (SHA256.sha256_pair testLeaf testS1))
          testLeaf [testS0, testS1] 2 = some false := by
  refine ⟨by decide, by decide, by decide⟩

end SSZ

namespace Vars

/-- `List.range 8` as an explicit list. -/
theorem range_eight : List.range 8 = [0, 1, 2, 3, 4, 5, 6, 7] := by rfl

/-- `List.range 4` as an explicit list. -/
theorem range_four : List.range 4 = [0, 1, 2, 3] := by rfl

/-- A byte constant fixes eight wires. -/
theorem byteEnc_length (v : Nat) : (byteEnc v).length = 8 := by
  simp [byteEnc]

/-- The wire constant at position `i` of a byte encoding. -/
theorem byteEnc_getD (v i : Nat) (h : i < 8) :
    (byteEnc v).getD i 0 =
      if ((1 <<< (7 - i)) &&& v) != 0 then 1 else 0 := by
  unfold byteEnc
  interval_cases i <;> rfl

/-- Position `i` of eight sequentially-allocated bool wires. -/
theorem bits_getD_const (start i : Nat) (h : i < 8) :
    (((List.range 8).map
        (fun j => (⟨start + j⟩ : BoolVariable))).getD i ⟨0⟩) =
      ⟨start + i⟩ := by
  interval_cases i <;> rfl

/-- Reading past a prefix of a concatenated wire list. -/
theorem getD_append_offset (l1 l2 : List Nat) (i : Nat) :
    (l1 ++ l2).getD (l1.length + i) 0 = l2.getD i 0 := by
  rw [List.getD_append_right l1 l2 0 _ (by omega)]
  congr 1
  omega

/-- `ByteVariable::value` depends only on what the witness holds on the
eight bit wires. -/
theorem byte_value_congr (w : Witness) (x : ByteVariable) (g : Nat → Nat)
    (h : ∀ i, i < 8 → w ((x.bits.getD i ⟨0⟩).t) = g i) :
    ByteVariable.value w x =
      (((List.range 8).map (fun i =>
        (1 <<< (7 - i)) * (if g i == 1 then 1 else 0))).sum) % 256 := by
  unfold ByteVariable.value BoolVariable.value
  congr 1
  exact congrArg List.sum (List.map_congr_left
    (fun i hi => by rw [h i (List.mem_range.mp hi)]))

set_option maxRecDepth 100000 in
/-- Decoding the big-endian bit encoding of a byte restores the byte. -/
theorem byteEnc_decode : ∀ v : Nat, v < 256 →
    (((List.range 8).map (fun i =>
      (1 <<< (7 - i)) * (if (byteEnc v).getD i 0 == 1 then 1
        else 0))).sum) % 256 = v := by
  decide

/-- The mask test `(1 << m) & v != 0` is bit `m` of `v`. -/
theorem shift_and_ne (m v : Nat) :
    (((1 <<< m) &&& v) != 0) = v.testBit m := by
  rw [Nat.one_shiftLeft, Nat.two_pow_and]
  cases hb : v.testBit m
  · simp
  · simp [(Nat.two_pow_pos m).ne']

/-- Reading a byte constant's wires through any later allocations restores
the byte. -/
theorem byte_constant_read (b : Builder) (v : Nat) (hv : v < 256)
    (ext : List Nat) :
    ByteVariable.value
        (witnessOf ⟨(ByteVariable.constant b v).2.wires ++ ext⟩)
        (ByteVariable.constant b v).1 = v := by
  have hread : ∀ i, i < 8 →
      witnessOf ⟨(ByteVariable.constant b v).2.wires ++ ext⟩
          (((ByteVariable.constant b v).1.bits.getD i ⟨0⟩).t) =
        (byteEnc v).getD i 0 := by
    intro i hi
    show ((b.wires ++ byteEnc v) ++ ext).getD
      ((((List.range 8).map
        (fun j => (⟨b.wires.length + j⟩ : BoolVariable))).getD i ⟨0⟩).t) 0 = _
    rw [bits_getD_const b.wires.length i hi, List.append_assoc,
      getD_append_offset]
    exact List.getD_append _ _ _ _ (by rw [byteEnc_length]; omega)
  rw [byte_value_congr _ _ _ hread]
  exact byteEnc_decode v hv

/-- After `ByteVariable::set`, each of the eight sequentially-allocated bit
wires holds the corresponding big-endian bit. -/
theorem byte_set_read (w : Witness) (v start i : Nat) (h : i < 8) :
    ByteVariable.set
        ⟨(List.range 8).map (fun j => (⟨start + j⟩ : BoolVariable))⟩ w v
        ((((List.range 8).map
          (fun j => (⟨start + j⟩ : BoolVariable))).getD i ⟨0⟩).t) =
      (byteEnc v).getD i 0 := by
  rw [bits_getD_const start i h]
  unfold ByteVariable.set
  simp only [range_eight, List.map_cons, List.map_nil, List.foldl_cons,
    List.foldl_nil, List.getD_cons_zero, List.getD_cons_succ,
    BoolVariable.set, writeWire, byteEnc]
  interval_cases i <;> simp [add_right_inj]

end Vars

namespace Vars

/-- C7: `ByteVariable` packs a byte as eight bits in big-endian order: for
every `u8` value, bit position `i` of the vector produced by `constant` and
written by `set` holds bit `7 - i` of the value (bit 0 is the most
significant), and `value` reconstructs the byte as the sum of
`bit_i * 2^(7-i)`, so setting and then reading yields the byte exactly. -/
theorem claim_C7_byte_big_endian_packing (b : Builder) (v : Nat)
    (w : Witness) (hv : v < 256) :
    (∀ i, i < 8 →
        witnessOf (ByteVariable.constant b v).2
            (((ByteVariable.constant b v).1.bits.getD i ⟨0⟩).t) =
          if v.testBit (7 - i) then 1 else 0) ∧
      (∀ i, i < 8 →
        ByteVariable.set (ByteVariable.init b).1 w v
            (((ByteVariable.init b).1.bits.getD i ⟨0⟩).t) =
          if v.testBit (7 - i) then 1 else 0) ∧
      ByteVariable.value (witnessOf (ByteVariable.constant b v).2)
          (ByteVariable.constant b v).1 = v ∧
      ByteVariable.value (ByteVariable.set (ByteVariable.init b).1 w v)
        (ByteVariable.init b).1 = v := by
  refine ⟨?_, ?_, ?_, ?_⟩
  · intro i hi
    have h1 : witnessOf (ByteVariable.constant b v).2
        (((ByteVariable.constant b v).1.bits.getD i ⟨0⟩).t) =
          (byteEnc v).getD i 0 := by
      show (b.wires ++ byteEnc v).getD
        ((((List.range 8).map
          (fun j => (⟨b.wires.length + j⟩ : BoolVariable))).getD i
            ⟨0⟩).t) 0 = _
      rw [bits_getD_const b.wires.length i hi, getD_append_offset]
    rw [h1, byteEnc_getD v i hi, shift_and_ne]
  · intro i hi
    have h1 := byte_set_read w v b.wires.length i hi
    rw [show ByteVariable.set (ByteVariable.init b).1 w v
        (((ByteVariable.init b).1.bits.getD i ⟨0⟩).t) =
          (byteEnc v).getD i 0 from h1, byteEnc_getD v i hi, shift_and_ne]
  · have h2 := byte_constant_read b v hv []
    rw [List.append_nil] at h2
    exact h2
  · have hread : ∀ i, i < 8 →
        ByteVariable.set (ByteVariable.init b).1 w v
            (((ByteVariable.init b).1.bits.getD i ⟨0⟩).t) =
          (byteEnc v).getD i 0 :=
      fun i hi => byte_set_read w v b.wires.length i hi
    rw [byte_value_congr _ _ _ hread]
    exact byteEnc_decode v hv

/-- Witness for C7 at the concrete byte 165 (`0xa5`). -/
theorem claim_C7_witness :
    (∀ i, i < 8 →
        witnessOf (ByteVariable.constant Builder.emptyB 165).2
            (((ByteVariable.constant Builder.emptyB 165).1.bits.getD i
              ⟨0⟩).t) =
          if (165 : Nat).testBit (7 - i) then 1 else 0) ∧
      (∀ i, i < 8 →
        ByteVariable.set (ByteVariable.init Builder.emptyB).1 (fun _ => 9)
            165
            (((ByteVariable.init Builder.emptyB).1.bits.getD i ⟨0⟩).t) =
          if (165 : Nat).testBit (7 - i) then 1 else 0) ∧
      ByteVariable.value
          (witnessOf (ByteVariable.constant Builder.emptyB 165).2)
          (ByteVariable.constant Builder.emptyB 165).1 = 165 ∧
      ByteVariable.value
        (ByteVariable.set (ByteVariable.init Builder.emptyB).1 (fun _ => 9)
          165)
        (ByteVariable.init Builder.emptyB).1 = 165 :=
  claim_C7_byte_big_endian_packing Builder.emptyB 165 (fun _ => 9)
    (by decide)

set_option maxRecDepth 100000 in
/-- C8: no `MalformedValue` error exists; `value()` returns bare values.  A
byte whose bit wires hold the out-of-range field value 2 silently decodes
to 0 (each bool reads `false`), and a validator whose limb wires make the
`U256` epochs exceed `u64::MAX` makes `value()` fail through the `as_u64`
panic (modelled `none`), not through any error value. -/
theorem claim_C8_no_malformed_value_error :
    ByteVariable.value (fun _ => 2) (ByteVariable.init Builder.emptyB).1 =
        0 ∧
      BeaconValidatorVariable.value (fun _ => 1)
        (BeaconValidatorVariable.init Builder.emptyB).1 = none := by
  constructor
  · decide
  · decide

end Vars

namespace Beacon

/-- C4: of the beacon builder methods, only `beacon_get_validators` attaches
an SSZ Merkle-proof verification (at constant gindex 363) to its
generator's output; `beacon_get_validator`, `beacon_get_validator_const`,
`beacon_get_validator_by_pubkey` and both balance getters return their
generator's output with no in-circuit re-verification, contradicting the
spec's re-verification contract. -/
theorem claim_C4_generator_reverification :
    beacon_get_validators_ops.any isMerkleVerification = true ∧
      beacon_get_validator_ops.any isMerkleVerification = false ∧
      (∀ index : Nat,
        (beacon_get_validator_const_ops index).any isMerkleVerification =
          false) ∧
      beacon_get_validator_by_pubkey_ops.any isMerkleVerification = false ∧
      beacon_get_validator_balance_ops.any isMerkleVerification = false ∧
      beacon_get_validator_balance_by_pubkey_ops.any isMerkleVerification =
        false :=
  ⟨rfl, rfl, fun _ => rfl, rfl, rfl, rfl⟩

end Beacon

namespace Pipeline

/-- C9: in both the map and the reduce stage, an output record exists only
for a proof that `prove` produced and `verify` accepted, the record is the
serialization of exactly that proof, and a verification failure (or any
earlier failing `unwrap`) aborts the stage with no output. -/
theorem claim_C9_prove_verify_serialize :
    (∀ (W P : Type) (parseInputs : String → Option (List Nat))
        (mkWitness : List Nat → W) (prove : W → Option P)
        (verify : P → Bool) (encode : P → String) (arg out : String),
        mapStage parseInputs mkWitness prove verify encode arg = some out →
        ∃ vals proof, parseInputs arg = some vals ∧
          prove (mkWitness vals) = some proof ∧ verify proof = true ∧
          out = encode proof) ∧
      (∀ (W P : Type) (parseInputs : String → Option (List Nat))
          (mkWitness : List Nat → W) (prove : W → Option P)
          (verify : P → Bool) (encode : P → String) (arg : String)
          (vals : List Nat) (proof : P),
          parseInputs arg = some vals →
          prove (mkWitness vals) = some proof → verify proof = false →
          mapStage parseInputs mkWitness prove verify encode arg = none) ∧
      (∀ (W P : Type) (decodeProof : String → Option P)
          (mkWitness : List P → W) (prove : W → Option P)
          (verify : P → Bool) (encode : P → String) (args : List String)
          (out : String),
          reduceStage decodeProof mkWitness prove verify encode args =
            some out →
          ∃ proofs proof,
            collectSome (args.map decodeProof) = some proofs ∧
              prove (mkWitness proofs) = some proof ∧ verify proof = true ∧
              out = encode proof) ∧
      (∀ (W P : Type) (decodeProof : String → Option P)
          (mkWitness : List P → W) (prove : W → Option P)
          (verify : P → Bool) (encode : P → String) (args : List String)
          (proofs : List P) (proof : P),
          collectSome (args.map decodeProof) = some proofs →
          prove (mkWitness proofs) = some proof → verify proof = false →
          reduceStage decodeProof mkWitness prove verify encode args =
            none) := by
  refine ⟨?_, ?_, ?_, ?_⟩
  · intro W P pi mk pr vf en arg out h
    unfold mapStage at h
    split at h
    · simp at h
    · rename_i vals hp
      split at h
      · simp at h
      · rename_i proof hq
        split at h
        · rename_i hv
          exact ⟨vals, proof, hp, hq, hv, (Option.some.inj h).symm⟩
        · simp at h
  · intro W P pi mk pr vf en arg vals proof hp hq hv
    simp [mapStage, hp, hq, hv]
  · intro W P dec mk pr vf en args out h
    unfold reduceStage at h
    split at h
    · simp at h
    · rename_i proofs hp
      split at h
      · simp at h
      · rename_i proof hq
        split at h
        · rename_i hv
          exact ⟨proofs, proof, hp, hq, hv, (Option.some.inj h).symm⟩
        · simp at h
  · intro W P dec mk pr vf en args proofs proof hp hq hv
    simp [reduceStage, hp, hq, hv]

/-- Witness for C9: a concrete map-stage run with a backend that proves and
verifies, showing the record is the verified proof's serialization. -/
theorem claim_C9_witness :
    ∃ vals proof,
      (fun _ : String => some [1, 2]) "in" = some vals ∧
        (fun _ : List Nat => some 7) vals = some proof ∧
        (fun _ : Nat => true) proof = true ∧
        "rec" = (fun _ : Nat => "rec") proof :=
  claim_C9_prove_verify_serialize.1 (List Nat) Nat
    (fun _ => some [1, 2]) (fun l => l) (fun _ => some 7) (fun _ => true)
    (fun _ => "rec") "in" "rec" rfl

end Pipeline

namespace Vars

/-- A list of length 8 is an explicit eight-element list. -/
theorem len8_destruct {β : Type} (l : List β) (h : l.length = 8) :
    ∃ a1 a2 a3 a4 a5 a6 a7 a8, l = [a1, a2, a3, a4, a5, a6, a7, a8] := by
  rcases l with _ | ⟨a1, _ | ⟨a2, _ | ⟨a3, _ | ⟨a4, _ | ⟨a5, _ | ⟨a6,
    _ | ⟨a7, _ | ⟨a8, _ | ⟨a9, t⟩⟩⟩⟩⟩⟩⟩⟩⟩ <;> simp_all

/-- `bytesFromTargets` undoes one well-formed byte's `targets`. -/
theorem byte_from_targets_round (x : ByteVariable) (h : x.bits.length = 8)
    (rest : List Target) :
    bytesFromTargets (ByteVariable.targets x ++ rest) =
      x :: bytesFromTargets rest := by
  obtain ⟨a1, a2, a3, a4, a5, a6, a7, a8, hx⟩ := len8_destruct x.bits h
  cases x with
  | mk bits =>
      dsimp only at hx
      subst hx
      rfl

/-- `bytesFromTargets` undoes `bytesTargets` on well-formed byte runs. -/
theorem bytes_from_targets_round (xs : List ByteVariable)
    (h : ∀ bb ∈ xs, bb.bits.length = 8) (rest : List Target) :
    bytesFromTargets (bytesTargets xs ++ rest) =
      xs ++ bytesFromTargets rest := by
  induction xs generalizing rest with
  | nil => rfl
  | cons x xs ih =>
      have hx := h x (List.mem_cons_self x xs)
      have hxs : ∀ bb ∈ xs, bb.bits.length = 8 :=
        fun bb hb => h bb (List.mem_cons_of_mem x hb)
      show bytesFromTargets
        ((ByteVariable.targets x ++ bytesTargets xs) ++ rest) = _
      rw [List.append_assoc, byte_from_targets_round x hx, ih hxs]
      rfl

/-- A well-formed run of `n` bytes flattens to `8 * n` wires. -/
theorem bytesTargets_length (xs : List ByteVariable)
    (h : ∀ bb ∈ xs, bb.bits.length = 8) :
    (bytesTargets xs).length = 8 * xs.length := by
  induction xs with
  | nil => rfl
  | cons x xs ih =>
      have hx := h x (List.mem_cons_self x xs)
      have hxs : ∀ bb ∈ xs, bb.bits.length = 8 :=
        fun bb hb => h bb (List.mem_cons_of_mem x hb)
      show (ByteVariable.targets x ++ bytesTargets xs).length = _
      rw [List.length_append, ih hxs]
      unfold ByteVariable.targets
      rw [List.length_map, hx, List.length_cons]
      ring

/-- `from_targets` undoes `targets` on every structurally well-formed
validator variable. -/
theorem validator_from_targets_round (x : BeaconValidatorVariable)
    (hx : x.wfb = true) :
    BeaconValidatorVariable.from_targets (BeaconValidatorVariable.targets x)
      = x := by
  simp only [BeaconValidatorVariable.wfb, bytesWfb, Bool.and_eq_true,
    beq_iff_eq, List.all_eq_true, decide_eq_true_eq] at hx
  obtain ⟨⟨⟨⟨⟨⟨⟨hpl, hpa⟩, hwl, hwa⟩, heb⟩, haee⟩, hae⟩, hee⟩, hwe⟩ := hx
  have hPl : (bytesTargets x.pubkey.bytes).length = 384 := by
    rw [bytesTargets_length _ hpa, hpl]
  have hWl : (bytesTargets x.withdrawal_credentials.bytes).length = 256 := by
    rw [bytesTargets_length _ hwa, hwl]
  have hSl : (BoolVariable.targets x.slashed).length = 1 := rfl
  have h384 : (BeaconValidatorVariable.targets x).drop 384 =
      bytesTargets x.withdrawal_credentials.bytes ++
        (x.effective_balance.limbs ++
          (BoolVariable.targets x.slashed ++
            (x.activation_eligibility_epoch.limbs ++
              (x.activation_epoch.limbs ++
                (x.exit_epoch.limbs ++ x.withdrawable_epoch.limbs))))) :=
    List.drop_left' hPl
  have h640 : (BeaconValidatorVariable.targets x).drop 640 =
      x.effective_balance.limbs ++
        (BoolVariable.targets x.slashed ++
          (x.activation_eligibility_epoch.limbs ++
            (x.activation_epoch.limbs ++
              (x.exit_epoch.limbs ++ x.withdrawable_epoch.limbs)))) := by
    rw [show (640 : Nat) = 384 + 256 from rfl, ← List.drop_drop, h384,
      List.drop_left' hWl]
  have h644 : (BeaconValidatorVariable.targets x).drop 644 =
      BoolVariable.targets x.slashed ++
        (x.activation_eligibility_epoch.limbs ++
          (x.activation_epoch.limbs ++
            (x.exit_epoch.limbs ++ x.withdrawable_epoch.limbs))) := by
    rw [show (644 : Nat) = 640 + 4 from rfl, ← List.drop_drop, h640,
      List.drop_left' heb]
  have h645 : (BeaconValidatorVariable.targets x).drop 645 =
      x.activation_eligibility_epoch.limbs ++
        (x.activation_epoch.limbs ++
          (x.exit_epoch.limbs ++ x.withdrawable_epoch.limbs)) := by
    rw [show (645 : Nat) = 644 + 1 from rfl, ← List.drop_drop, h644,
      List.drop_left' hSl]
  have h649 : (BeaconValidatorVariable.targets x).drop 649 =
      x.activation_epoch.limbs ++
        (x.exit_epoch.limbs ++ x.withdrawable_epoch.limbs) := by
    rw [show (649 : Nat) = 645 + 4 from rfl, ← List.drop_drop, h645,
      List.drop_left' haee]
  have h653 : (BeaconValidatorVariable.targets x).drop 653 =
      x.exit_epoch.limbs ++ x.withdrawable_epoch.limbs := by
    rw [show (653 : Nat) = 649 + 4 from rfl, ← List.drop_drop, h649,
      List.drop_left' hae]
  have h657 : (BeaconValidatorVariable.targets x).drop 657 =
      x.withdrawable_epoch.limbs := by
    rw [show (657 : Nat) = 653 + 4 from rfl, ← List.drop_drop, h653,
      List.drop_left' hee]
  have hPr : bytesFromTargets (bytesTargets x.pubkey.bytes) =
      x.pubkey.bytes := by
    have h0 := bytes_from_targets_round x.pubkey.bytes hpa []
    rw [List.append_nil, show bytesFromTargets ([] : List Target) = []
      from rfl, List.append_nil] at h0
    exact h0
  have hWr : bytesFromTargets (bytesTargets x.withdrawal_credentials.bytes) =
      x.withdrawal_credentials.bytes := by
    have h0 := bytes_from_targets_round x.withdrawal_credentials.bytes hwa []
    rw [List.append_nil, show bytesFromTargets ([] : List Target) = []
      from rfl, List.append_nil] at h0
    exact h0
  unfold BeaconValidatorVariable.from_targets
  rw [show (BeaconValidatorVariable.targets x).take 384 =
      bytesTargets x.pubkey.bytes from List.take_left' hPl,
    h384, List.take_left' hWl, h640, List.take_left' heb, h644,
    List.take_left' hSl, h645, List.take_left' haee, h649,
    List.take_left' hae, h653, List.take_left' hee, h657]
  unfold BLSPubkeyVariable.from_targets Bytes32Variable.from_targets
    U256Variable.from_targets BoolVariable.from_targets
  rw [hPr, hWr, List.take_of_length_le (by omega)]
  rfl

end Vars

namespace Vars

/-- C6: every structurally well-formed `BeaconValidatorVariable` flattens to
the compile-time-constant wire count 661 (384 pubkey + 256 withdrawal
credentials + 4 effective balance + 1 slashed + 4 wires for each of the
four epoch fields, in that order), and `from_targets` undoes `targets`. -/
theorem claim_C6_wire_layout_roundtrip (x : BeaconValidatorVariable)
    (hx : x.wfb = true) :
    (BeaconValidatorVariable.targets x).length = 661 ∧
      BeaconValidatorVariable.from_targets
        (BeaconValidatorVariable.targets x) = x := by
  constructor
  · simp only [BeaconValidatorVariable.wfb, bytesWfb, Bool.and_eq_true,
      beq_iff_eq, List.all_eq_true, decide_eq_true_eq] at hx
    obtain ⟨⟨⟨⟨⟨⟨⟨hpl, hpa⟩, hwl, hwa⟩, heb⟩, haee⟩, hae⟩, hee⟩, hwe⟩ := hx
    unfold BeaconValidatorVariable.targets
    rw [List.length_append, List.length_append, List.length_append,
      List.length_append, List.length_append, List.length_append,
      List.length_append, bytesTargets_length _ hpa,
      bytesTargets_length _ hwa, hpl, hwl, heb, haee, hae, hee, hwe]
    rfl
  · exact validator_from_targets_round x hx

set_option maxRecDepth 1000000 in
/-- Witness for C6 on the concrete validator variable built from the wire
list `0, 1, ..., 660`. -/
theorem claim_C6_witness :
    (BeaconValidatorVariable.targets
        (BeaconValidatorVariable.from_targets (List.range 661))).length =
        661 ∧
      BeaconValidatorVariable.from_targets
          (BeaconValidatorVariable.targets
            (BeaconValidatorVariable.from_targets (List.range 661))) =
        BeaconValidatorVariable.from_targets (List.range 661) :=
  claim_C6_wire_layout_roundtrip
    (BeaconValidatorVariable.from_targets (List.range 661)) (by decide)

end Vars

namespace Vars

/-- A builder is determined by its wire list. -/
theorem builder_eq_mk (b : Builder) (l : List Nat) (h : b.wires = l) :
    b = ⟨l⟩ := by
  cases b
  cases h
  rfl

/-- Reading a bool constant's wire through any later allocations restores
the bool. -/
theorem bool_constant_read (b : Builder) (v : Bool) (ext : List Nat) :
    BoolVariable.value
        (witnessOf ⟨(BoolVariable.constant b v).2.wires ++ ext⟩)
        (BoolVariable.constant b v).1 = v := by
  show (((b.wires ++ [if v then 1 else 0]) ++ ext).getD b.wires.length 0
    == 1) = v
  rw [List.append_assoc]
  have h0 := getD_append_offset b.wires ([if v then 1 else 0] ++ ext) 0
  rw [Nat.add_zero] at h0
  rw [h0]
  cases v <;> rfl

/-- A run of byte constants appends exactly its encoding to the wires. -/
theorem bytes_constant_wires (vs : List Nat) : ∀ (b : Builder),
    (bytesConstant b vs).2.wires = b.wires ++ bytesEnc vs := by
  induction vs with
  | nil => intro b; simp [bytesConstant, bytesEnc]
  | cons v vs ih =>
      intro b
      show (bytesConstant ⟨b.wires ++ byteEnc v⟩ vs).2.wires = _
      rw [ih]
      simp [bytesEnc, List.append_assoc]

/-- Reading a run of byte constants through any later allocations restores
the byte values. -/
theorem bytes_constant_read (vs : List Nat) : ∀ (b : Builder)
    (ext : List Nat), (∀ u ∈ vs, u < 256) →
    bytesValue (witnessOf ⟨(bytesConstant b vs).2.wires ++ ext⟩)
      (bytesConstant b vs).1 = vs := by
  induction vs with
  | nil => intro b ext h; rfl
  | cons v vs ih =>
      intro b ext h
      have hv := h v (List.mem_cons_self v vs)
      have hvs : ∀ u ∈ vs, u < 256 :=
        fun u hu => h u (List.mem_cons_of_mem v hu)
      show ByteVariable.value
          (witnessOf ⟨(bytesConstant (ByteVariable.constant b v).2
            vs).2.wires ++ ext⟩) (ByteVariable.constant b v).1 ::
          bytesValue (witnessOf ⟨(bytesConstant (ByteVariable.constant b
            v).2 vs).2.wires ++ ext⟩)
            (bytesConstant (ByteVariable.constant b v).2 vs).1 = v :: vs
      rw [show ((bytesConstant (ByteVariable.constant b v).2 vs).2.wires ++
          ext : List Nat) =
            (ByteVariable.constant b v).2.wires ++ (bytesEnc vs ++ ext) by
        rw [bytes_constant_wires, List.append_assoc]]
      rw [byte_constant_read b v hv (bytesEnc vs ++ ext)]
      congr 1
      rw [show ((ByteVariable.constant b v).2.wires ++ (bytesEnc vs ++ ext) :
          List Nat) =
            (bytesConstant (ByteVariable.constant b v).2 vs).2.wires ++
              ext by rw [bytes_constant_wires, List.append_assoc]]
      exact ih (ByteVariable.constant b v).2 ext hvs

/-- Reading a `U256` constant's limbs through any later allocations restores
the (64-bit) value. -/
theorem u256_constant_read (b : Builder) (v : Nat) (hv : v < 2 ^ 64)
    (ext : List Nat) :
    U256Variable.value
        (witnessOf ⟨(U256Variable.constant b v).2.wires ++ ext⟩)
        (U256Variable.constant b v).1 = v := by
  have hr : ∀ j, j < 4 →
      witnessOf ⟨(U256Variable.constant b v).2.wires ++ ext⟩
          (b.wires.length + j) = (u256Enc v).getD j 0 := by
    intro j hj
    show ((b.wires ++ u256Enc v) ++ ext).getD (b.wires.length + j) 0 = _
    rw [List.append_assoc, getD_append_offset]
    exact List.getD_append _ _ _ _ (by simp [u256Enc]; omega)
  show limbsValue (witnessOf ⟨(U256Variable.constant b v).2.wires ++ ext⟩)
    ((List.range 4).map (fun j => b.wires.length + j)) = v
  rw [range_four]
  simp only [List.map_cons, List.map_nil, limbsValue]
  rw [hr 0 (by omega), hr 1 (by omega), hr 2 (by omega), hr 3 (by omega)]
  show (v >>> (64 * 0)) % 2 ^ 64 +
    2 ^ 64 * ((v >>> (64 * 1)) % 2 ^ 64 +
      2 ^ 64 * ((v >>> (64 * 2)) % 2 ^ 64 +
        2 ^ 64 * ((v >>> (64 * 3)) % 2 ^ 64 + 2 ^ 64 * 0))) = v
  simp only [Nat.shiftRight_eq_div_pow]
  norm_num
  omega

/-- A run of byte constants has one byte variable per value. -/
theorem bytes_constant_len (vs : List Nat) : ∀ (b : Builder),
    (bytesConstant b vs).1.length = vs.length := by
  induction vs with
  | nil => intro b; rfl
  | cons v vs ih =>
      intro b
      show ((ByteVariable.constant b v).1 ::
        (bytesConstant (ByteVariable.constant b v).2 vs).1).length = _
      rw [List.length_cons, ih, List.length_cons]

/-- Every byte variable a run of byte constants produces has eight bits. -/
theorem bytes_constant_wf (vs : List Nat) : ∀ (b : Builder),
    ∀ bb ∈ (bytesConstant b vs).1, bb.bits.length = 8 := by
  induction vs with
  | nil => intro b bb hb; cases hb
  | cons v vs ih =>
      intro b bb hb
      have : bb = (ByteVariable.constant b v).1 ∨
          bb ∈ (bytesConstant (ByteVariable.constant b v).2 vs).1 :=
        List.mem_cons.mp hb
      cases this with
      | inl h => rw [h]; simp [ByteVariable.constant]
      | inr h => exact ih (ByteVariable.constant b v).2 bb h

end Vars

namespace Vars

/-- Byte-run read, routed through a later builder state. -/
theorem bytes_read_suffix (b2 bpre : Builder) (vs : List Nat)
    (hv : ∀ u ∈ vs, u < 256) (ext : List Nat)
    (h : b2.wires = (bytesConstant bpre vs).2.wires ++ ext) :
    bytesValue (witnessOf b2) (bytesConstant bpre vs).1 = vs := by
  rw [builder_eq_mk b2 _ h]
  exact bytes_constant_read vs bpre ext hv

/-- `U256` read, routed through a later builder state. -/
theorem u256_read_suffix (b2 bpre : Builder) (v : Nat) (hv : v < 2 ^ 64)
    (ext : List Nat)
    (h : b2.wires = (U256Variable.constant bpre v).2.wires ++ ext) :
    U256Variable.value (witnessOf b2) (U256Variable.constant bpre v).1 =
      v := by
  rw [builder_eq_mk b2 _ h]
  exact u256_constant_read bpre v hv ext

/-- Bool read, routed through a later builder state. -/
theorem bool_read_suffix (b2 bpre : Builder) (v : Bool) (ext : List Nat)
    (h : b2.wires = (BoolVariable.constant bpre v).2.wires ++ ext) :
    BoolVariable.value (witnessOf b2) (BoolVariable.constant bpre v).1 =
      v := by
  rw [builder_eq_mk b2 _ h]
  exact bool_constant_read bpre v ext

/-- The constant of a value-well-formed validator record is structurally
well-formed. -/
theorem validator_constant_wf (b : Builder) (v : BeaconValidator)
    (hv : v.wfb = true) :
    (BeaconValidatorVariable.constant b v).1.wfb = true := by
  simp only [BeaconValidator.wfb, Bool.and_eq_true, beq_iff_eq,
    List.all_eq_true, decide_eq_true_eq] at hv
  obtain ⟨⟨⟨⟨⟨⟨⟨⟨hpl, hpa⟩, hwl⟩, hwa⟩, heb⟩, haee⟩, hae⟩, hee⟩, hwe⟩ := hv
  simp only [BeaconValidatorVariable.constant, BeaconValidatorVariable.wfb,
    bytesWfb, Bool.and_eq_true, beq_iff_eq, List.all_eq_true,
    decide_eq_true_eq]
  refine ⟨⟨⟨⟨⟨⟨⟨by rw [bytes_constant_len, hpl],
    fun bb hb => bytes_constant_wf _ _ bb hb⟩,
    by rw [bytes_constant_len, hwl],
    fun bb hb => bytes_constant_wf _ _ bb hb⟩, ?_⟩, ?_⟩, ?_⟩, ?_⟩, ?_⟩ <;>
    simp [U256Variable.constant]

end Vars

namespace Vars

/-- Reading a whole constant validator back through the final builder state:
every field returns, with the optional epochs collapsed through
`unwrap_or(0)` on the way in and re-wrapped in `Some` on the way out. -/
theorem validator_constant_value (b : Builder) (v : BeaconValidator)
    (hv : v.wfb = true) :
    BeaconValidatorVariable.value
        (witnessOf (BeaconValidatorVariable.constant b v).2)
        (BeaconValidatorVariable.constant b v).1 =
      some { v with exit_epoch := some (v.exit_epoch.getD 0),
                    withdrawable_epoch := some (v.withdrawable_epoch.getD 0) }
    := by
  simp only [BeaconValidator.wfb, Bool.and_eq_true, beq_iff_eq,
    List.all_eq_true, decide_eq_true_eq] at hv
  obtain ⟨⟨⟨⟨⟨⟨⟨⟨hpl, hpa⟩, hwl⟩, hwa⟩, heb⟩, haee⟩, hae⟩, hee⟩, hwe⟩ := hv
  have hpkv : bytesValue
      (witnessOf (BeaconValidatorVariable.constant b v).2)
      (BeaconValidatorVariable.constant b v).1.pubkey.bytes = v.pubkey := by
    show bytesValue (witnessOf (BeaconValidatorVariable.constant b v).2)
      (bytesConstant b v.pubkey).1 = v.pubkey
    exact bytes_read_suffix _ _ _ hpa
      (bytesEnc v.withdrawal_credentials ++
        (u256Enc v.effective_balance ++
          ([if v.slashed then 1 else 0] ++
            (u256Enc v.activation_eligibility_epoch ++
              (u256Enc v.activation_epoch ++
                (u256Enc (v.exit_epoch.getD 0) ++
                  u256Enc (v.withdrawable_epoch.getD 0)))))))
      (by simp [BeaconValidatorVariable.constant, U256Variable.constant,
        BoolVariable.constant, bytes_constant_wires, List.append_assoc])
  have hwcv : bytesValue
      (witnessOf (BeaconValidatorVariable.constant b v).2)
      (BeaconValidatorVariable.constant b
        v).1.withdrawal_credentials.bytes = v.withdrawal_credentials := by
    show bytesValue (witnessOf (BeaconValidatorVariable.constant b v).2)
      (bytesConstant (bytesConstant b v.pubkey).2
        v.withdrawal_credentials).1 = v.withdrawal_credentials
    exact bytes_read_suffix _ _ _ hwa
      (u256Enc v.effective_balance ++
        ([if v.slashed then 1 else 0] ++
          (u256Enc v.activation_eligibility_epoch ++
            (u256Enc v.activation_epoch ++
              (u256Enc (v.exit_epoch.getD 0) ++
                u256Enc (v.withdrawable_epoch.getD 0))))))
      (by simp [BeaconValidatorVariable.constant, U256Variable.constant,
        BoolVariable.constant, bytes_constant_wires, List.append_assoc])
  have hebv : U256Variable.value
      (witnessOf (BeaconValidatorVariable.constant b v).2)
      (BeaconValidatorVariable.constant b v).1.effective_balance =
        v.effective_balance := by
    show U256Variable.value
      (witnessOf (BeaconValidatorVariable.constant b v).2)
      (U256Variable.constant
        (bytesConstant (bytesConstant b v.pubkey).2
          v.withdrawal_credentials).2 v.effective_balance).1 = _
    exact u256_read_suffix _ _ _ heb
      ([if v.slashed then 1 else 0] ++
        (u256Enc v.activation_eligibility_epoch ++
          (u256Enc v.activation_epoch ++
            (u256Enc (v.exit_epoch.getD 0) ++
              u256Enc (v.withdrawable_epoch.getD 0)))))
      (by simp [BeaconValidatorVariable.constant, U256Variable.constant,
        BoolVariable.constant, bytes_constant_wires, List.append_assoc])
  have hslv : BoolVariable.value
      (witnessOf (BeaconValidatorVariable.constant b v).2)
      (BeaconValidatorVariable.constant b v).1.slashed = v.slashed := by
    show BoolVariable.value
      (witnessOf (BeaconValidatorVariable.constant b v).2)
      (BoolVariable.constant
        (U256Variable.constant
          (bytesConstant (bytesConstant b v.pubkey).2
            v.withdrawal_credentials).2 v.effective_balance).2
        v.slashed).1 = _
    exact bool_read_suffix _ _ _
      (u256Enc v.activation_eligibility_epoch ++
        (u256Enc v.activation_epoch ++
          (u256Enc (v.exit_epoch.getD 0) ++
            u256Enc (v.withdrawable_epoch.getD 0))))
      (by simp [BeaconValidatorVariable.constant, U256Variable.constant,
        BoolVariable.constant, bytes_constant_wires, List.append_assoc])
  have haeev : U256Variable.value
      (witnessOf (BeaconValidatorVariable.constant b v).2)
      (BeaconValidatorVariable.constant b
        v).1.activation_eligibility_epoch =
        v.activation_eligibility_epoch := by
    show U256Variable.value
      (witnessOf (BeaconValidatorVariable.constant b v).2)
      (U256Variable.constant
        (BoolVariable.constant
          (U256Variable.constant
            (bytesConstant (bytesConstant b v.pubkey).2
              v.withdrawal_credentials).2 v.effective_balance).2
          v.slashed).2 v.activation_eligibility_epoch).1 = _
    exact u256_read_suffix _ _ _ haee
      (u256Enc v.activation_epoch ++
        (u256Enc (v.exit_epoch.getD 0) ++
          u256Enc (v.withdrawable_epoch.getD 0)))
      (by simp [BeaconValidatorVariable.constant, U256Variable.constant,
        BoolVariable.constant, bytes_constant_wires, List.append_assoc])
  have haev : U256Variable.value
      (witnessOf (BeaconValidatorVariable.constant b v).2)
      (BeaconValidatorVariable.constant b v).1.activation_epoch =
        v.activation_epoch := by
    show U256Variable.value
      (witnessOf (BeaconValidatorVariable.constant b v).2)
      (U256Variable.constant
        (U256Variable.constant
          (BoolVariable.constant
            (U256Variable.constant
              (bytesConstant (bytesConstant b v.pubkey).2
                v.withdrawal_credentials).2 v.effective_balance).2
            v.slashed).2 v.activation_eligibility_epoch).2
        v.activation_epoch).1 = _
    exact u256_read_suffix _ _ _ hae
      (u256Enc (v.exit_epoch.getD 0) ++
        u256Enc (v.withdrawable_epoch.getD 0))
      (by simp [BeaconValidatorVariable.constant, U256Variable.constant,
        BoolVariable.constant, bytes_constant_wires, List.append_assoc])
  have heev : U256Variable.value
      (witnessOf (BeaconValidatorVariable.constant b v).2)
      (BeaconValidatorVariable.constant b v).1.exit_epoch =
        v.exit_epoch.getD 0 := by
    show U256Variable.value
      (witnessOf (BeaconValidatorVariable.constant b v).2)
      (U256Variable.constant
        (U256Variable.constant
          (U256Variable.constant
            (BoolVariable.constant
              (U256Variable.constant
                (bytesConstant (bytesConstant b v.pubkey).2
                  v.withdrawal_credentials).2 v.effective_balance).2
              v.slashed).2 v.activation_eligibility_epoch).2
          v.activation_epoch).2 (v.exit_epoch.getD 0)).1 = _
    exact u256_read_suffix _ _ _ hee
      (u256Enc (v.withdrawable_epoch.getD 0))
      (by simp [BeaconValidatorVariable.constant, U256Variable.constant,
        BoolVariable.constant, bytes_constant_wires, List.append_assoc])
  have hwev : U256Variable.value
      (witnessOf (BeaconValidatorVariable.constant b v).2)
      (BeaconValidatorVariable.constant b v).1.withdrawable_epoch =
        v.withdrawable_epoch.getD 0 := by
    show U256Variable.value
      (witnessOf (BeaconValidatorVariable.constant b v).2)
      (U256Variable.constant
        (U256Variable.constant
          (U256Variable.constant
            (U256Variable.constant
              (BoolVariable.constant
                (U256Variable.constant
                  (bytesConstant (bytesConstant b v.pubkey).2
                    v.withdrawal_credentials).2 v.effective_balance).2
                v.slashed).2 v.activation_eligibility_epoch).2
            v.activation_epoch).2 (v.exit_epoch.getD 0)).2
        (v.withdrawable_epoch.getD 0)).1 = _
    exact u256_read_suffix _ _ _ hwe ([] : List Nat)
      (by simp [BeaconValidatorVariable.constant, U256Variable.constant,
        BoolVariable.constant, bytes_constant_wires, List.append_assoc])
  unfold BeaconValidatorVariable.value
  rw [hebv, haeev, haev, heev, hwev, hpkv, hwcv, hslv]
  have heb2 : v.effective_balance < 18446744073709551616 := heb
  have haee2 : v.activation_eligibility_epoch < 18446744073709551616 := haee
  have hae2 : v.activation_epoch < 18446744073709551616 := hae
  have hee2 : v.exit_epoch.getD 0 < 18446744073709551616 := hee
  have hwe2 : v.withdrawable_epoch.getD 0 < 18446744073709551616 := hwe
  simp [u256_as_u64, heb2, haee2, hae2, hee2, hwe2]

end Vars

namespace Vars

/-- C5 (amended): for every well-formed `BeaconValidator` value — including
values whose `exit_epoch` or `withdrawable_epoch` is `None` — the constant
validator variable survives `from_targets ∘ targets` unchanged; and
whenever both optional epochs are `Some`, `value()` additionally reads the
original value back exactly.  (A value with a `None` epoch is collapsed to
0 by `constant` and reads back as `Some 0`, see the counterexample.) -/
theorem claim_C5_constant_roundtrip (v : BeaconValidator) (b : Builder)
    (hv : v.wfb = true) :
    BeaconValidatorVariable.from_targets
        (BeaconValidatorVariable.targets
          (BeaconValidatorVariable.constant b v).1) =
        (BeaconValidatorVariable.constant b v).1 ∧
      (v.exit_epoch.isSome = true → v.withdrawable_epoch.isSome = true →
        BeaconValidatorVariable.value
            (witnessOf (BeaconValidatorVariable.constant b v).2)
            (BeaconValidatorVariable.constant b v).1 = some v) := by
  constructor
  · exact validator_from_targets_round _ (validator_constant_wf b v hv)
  · intro he hw
    rw [validator_constant_value b v hv]
    obtain ⟨e, he2⟩ := Option.isSome_iff_exists.mp he
    obtain ⟨we, hw2⟩ := Option.isSome_iff_exists.mp hw
    cases v with
    | mk pk wc eb sl aee ae ee wd =>
        simp only at he2 hw2
        subst he2
        subst hw2
        simp

/-- Witness for C5: the structural round-trip on a concrete validator with
both optional epochs absent, and the full round-trip with exact `value()`
read-back on one with both present. -/
theorem claim_C5_witness :
    BeaconValidatorVariable.from_targets
        (BeaconValidatorVariable.targets
          (BeaconValidatorVariable.constant Builder.emptyB
            sampleValidatorNone).1) =
        (BeaconValidatorVariable.constant Builder.emptyB
          sampleValidatorNone).1 ∧
      BeaconValidatorVariable.from_targets
          (BeaconValidatorVariable.targets
            (BeaconValidatorVariable.constant Builder.emptyB
              sampleValidatorSome).1) =
          (BeaconValidatorVariable.constant Builder.emptyB
            sampleValidatorSome).1 ∧
      BeaconValidatorVariable.value
          (witnessOf (BeaconValidatorVariable.constant Builder.emptyB
            sampleValidatorSome).2)
          (BeaconValidatorVariable.constant Builder.emptyB
            sampleValidatorSome).1 = some sampleValidatorSome :=
  ⟨(claim_C5_constant_roundtrip sampleValidatorNone Builder.emptyB
      (by decide)).1,
    (claim_C5_constant_roundtrip sampleValidatorSome Builder.emptyB
      (by decide)).1,
    (claim_C5_constant_roundtrip sampleValidatorSome Builder.emptyB
      (by decide)).2 (by decide) (by decide)⟩

/-- Counterexample to C5 as stated: a validator whose `exit_epoch` and
`withdrawable_epoch` are `None` does not read back exactly — `constant`
collapses the `None`s to 0 through `unwrap_or(0)` and `value()` returns
them as `Some 0`. -/
theorem claim_C5_counterexample :
    BeaconValidatorVariable.value
        (witnessOf (BeaconValidatorVariable.constant Builder.emptyB
          sampleValidatorNone).2)
        (BeaconValidatorVariable.constant Builder.emptyB
          sampleValidatorNone).1 =
      some { sampleValidatorNone with
               exit_epoch := (some 0),
               withdrawable_epoch := (some 0) } ∧
      some { sampleValidatorNone with
               exit_epoch := (some 0),
               withdrawable_epoch := (some 0) } ≠
        some sampleValidatorNone := by
  constructor
  · rw [validator_constant_value Builder.emptyB sampleValidatorNone
      (by decide)]
    decide
  · decide

end Vars
